import Mathlib

/-!
Verification of `check_efy.py` against its natural-language specification.

The script polls an HTML availability table, and when seats are free sends a
text message to each recipient.  We give a shallow embedding of the Python
functions: pure logic is translated directly, the external collaborators
(HTTP fetch, the HTML parser, the SMS client, the OS writability checks,
the normal-distribution sampler) become explicit parameters, and Python
exceptions become `Except` values.
-/

/-- A Python runtime value, as far as the script manipulates them:
`isSiteAvailable` returns either the int `0` or the raw seat-cell string. -/
inductive PyVal where
  | int (n : Int)
  | str (s : String)
  deriving DecidableEq, Repr

/-- The Python exceptions that can arise in the script. -/
inductive PyExc where
  | indexError
  | typeError (msg : String)
  | valueError (msg : String)
  | keyboardInterrupt
  | connectionResetError
  | unboundLocalError (name : String)
  | twilioRestError (msg : String)
  deriving DecidableEq, Repr

deriving instance DecidableEq for Except

/-- Python `str()` on the values the script passes to it. -/
def pyStr : PyVal → String
  | .int n => toString n
  | .str s => s

/-- Python `%`-formatting restricted to `%s` conversions, which are the only
conversions occurring in the script's format strings.  Substitutes arguments
left to right; raises `TypeError` when a `%s` finds no argument left, or when
arguments remain after the format string is exhausted — exactly CPython's
behaviour for `fmt % args`. -/
def pyFormatAux : List Char → List String → Except PyExc (List Char)
  | [], [] => .ok []
  | [], _ :: _ =>
      .error (.typeError "not all arguments converted during string formatting")
  | '%' :: 's' :: _, [] =>
      .error (.typeError "not enough arguments for format string")
  | '%' :: 's' :: rest, a :: args =>
      match pyFormatAux rest args with
      | .ok tail => .ok (a.data ++ tail)
      | .error e => .error e
  | c :: rest, args =>
      match pyFormatAux rest args with
      | .ok tail => .ok (c :: tail)
      | .error e => .error e

/-- `fmt % args` for pure-`%s` format strings, on `String`. -/
def pyFormat (fmt : String) (args : List String) : Except PyExc String :=
  match pyFormatAux fmt.data args with
  | .ok cs => .ok (String.mk cs)
  | .error e => .error e

/-- `SESSION_ID = "UT Provo 04B"` -/
def SESSION_ID : String := "UT Provo 04B"

/-- `MSG_TEXT_MESSAGE`: the source builds it by concatenating two adjacent
string literals; written here as the single resulting literal.  It has two
`%s` conversion slots. -/
def MSG_TEXT_MESSAGE : String :=
  "%s spots availible for session %s at efy.Click here https://efy.byu.edu/efy_session/10091862."

/-- `MSG_RECIPIENT_ERR` (the quotes around the plus sign in the original
literal are dropped; the message text is otherwise verbatim). -/
def MSG_RECIPIENT_ERR : String :=
  "Invalid recipient number %s. Recipient should be formatted with a + and country code e.g., +16175551212 (E.164 format)."

/-- `ERROR_LOG_FILENAME = 'check-efy.log'` -/
def ERROR_LOG_FILENAME : String := "check-efy.log"

/-! ### Availability checker (`isSiteAvailable`, lines 75-121) -/

/-- The outcome of `urlopen` + BeautifulSoup parsing, the external
collaborators of `isSiteAvailable`: either the parsed table rows (each row the
list of its already-stripped `td` cell texts) or a connection reset raised by
the fetch. -/
inductive FetchResult where
  | page (rows : List (List String))
  | connectionReset
  deriving DecidableEq, Repr

/-- The row loop of `isSiteAvailable`.  For each row it reads `cols[0]`,
`cols[1]` and `cols[3]` unconditionally (an `IndexError` escapes the
`try`, whose only handler is for `ConnectionResetError`), then compares the
session id; on a match it returns `(0, False)` for a `Full` cell and
`(c_seats, True)` (the raw cell text) otherwise.  Falling off the loop end
returns Python `None`, modelled as `Option.none`. -/
def findRow (session_id : String) : List (List String) → Except PyExc (Option (PyVal × Bool))
  | [] => .ok none
  | cols :: rest =>
      match cols[0]?, cols[1]?, cols[3]? with
      | some c_session_id, some _c_session_date, some c_seats =>
          if c_session_id = session_id then
            if c_seats = "Full" then .ok (some (.int 0, false))
            else .ok (some (.str c_seats, true))
          else findRow session_id rest
      | _, _, _ => .error .indexError

/-- `isSiteAvailable(session_id)`: the fetch outcome is a parameter.  A
`ConnectionResetError` is caught and converted to `(0, False)`; every other
exception (in particular the row loop's `IndexError`) propagates. -/
def isSiteAvailable (fetch : FetchResult) (session_id : String) :
    Except PyExc (Option (PyVal × Bool)) :=
  match fetch with
  | .page rows => findRow session_id rows
  | .connectionReset => .ok (some (.int 0, false))

/-! ### Delay generator (`get_delay_mins`, lines 123-142) -/

/-- Python `int()` on a rational: truncation toward zero. -/
def pyInt (q : ℚ) : ℤ :=
  if q < 0 then -Int.floor (-q) else Int.floor q

/-- Default mean of `get_delay_mins` (`mu=10`). -/
def DEFAULT_MU : ℚ := 10

/-- Default standard deviation of `get_delay_mins` (`sigma=15`). -/
def DEFAULT_SIGMA : ℚ := 15

/-- `get_delay_mins(mu, sigma)`: `normal` stands for `np.random.normal`, the
randomness source, a parameter of the model.  The draw is clamped below at 0
and then truncated with `int()`. -/
def get_delay_mins (normal : ℚ → ℚ → ℚ) (mu sigma : ℚ) : ℤ :=
  let x := normal mu sigma
  let x2 := if x < 0 then 0 else x
  pyInt x2

/-! ### Recipient validation (`validate_e164`, lines 218-232) -/

/-- A plain decimal digit `0` (code 48) through `9` (code 57), the digits
the claim's format rule speaks about. -/
def isAsciiDigit (c : Char) : Bool := 48 ≤ c.toNat && c.toNat ≤ 57

/-- The zero code point of every block of ten consecutive Unicode decimal
digits (category Nd, Unicode 15.0, the database current CPython ships), in
code-point order: ASCII, Arabic-Indic, Extended Arabic-Indic, NKo, the
Indic scripts, Thai, Lao, Tibetan, Myanmar, Khmer, Mongolian, Limbu,
New Tai Lue, Tai Tham, Balinese, Sundanese, Lepcha, Ol Chiki, Vai,
Saurashtra, Kayah Li, Javanese, Myanmar Tai Laing, Cham, Meetei Mayek,
fullwidth, Osmanya, Hanifi Rohingya, Brahmi, Sora Sompeng, Chakma, Sharada,
Khudawadi, Newa, Tirhuta, Modi, Takri, Ahom, Warang Citi, Dives Akuru,
Bhaiksuki, Masaram Gondi, Gunjala Gondi, Kawi, Mro, Tangsa, Pahawh Hmong,
Nyiakeng Puachue Hmong, Wancho, Nag Mundari, Adlam, legacy computing.  The
remaining Nd block, mathematical alphanumeric digits, is handled separately
because it holds fifty characters. -/
def ndZeroPoints : List Nat :=
  [0x30, 0x660, 0x6F0, 0x7C0, 0x966, 0x9E6, 0xA66, 0xAE6, 0xB66, 0xBE6,
   0xC66, 0xCE6, 0xD66, 0xDE6, 0xE50, 0xED0, 0xF20, 0x1040, 0x1090, 0x17E0,
   0x1810, 0x1946, 0x19D0, 0x1A80, 0x1A90, 0x1B50, 0x1BB0, 0x1C40, 0x1C50,
   0xA620, 0xA8D0, 0xA900, 0xA9D0, 0xA9F0, 0xAA50, 0xABF0, 0xFF10,
   0x104A0, 0x10D30, 0x11066, 0x110F0, 0x11136, 0x111D0, 0x112F0, 0x11450,
   0x114D0, 0x11650, 0x116C0, 0x11730, 0x118E0, 0x11950, 0x11C50, 0x11D50,
   0x11DA0, 0x11F50, 0x16A60, 0x16AC0, 0x16B50, 0x1E140, 0x1E2F0, 0x1E4F0,
   0x1E950, 0x1FBF0]

/-- One character of `\d` as CPython matches it on `str` patterns: any
Unicode decimal digit (category Nd), not only ASCII `0`-`9`. -/
def isPyDigit (c : Char) : Bool :=
  ndZeroPoints.any (fun z => z ≤ c.toNat && c.toNat ≤ z + 9) ||
    (0x1D7CE ≤ c.toNat && c.toNat ≤ 0x1D7FF)

/-- `\d\x7b1,14\x7d$` against the remaining characters: between 1 and 14
decimal digits followed by the `$` anchor, which in CPython (without
`re.MULTILINE`) matches at the end of the string or just before one newline
(code 10) that ends the string. -/
def digitsThenDollar (ds : List Char) : Bool :=
  (ds.all isPyDigit && (1 ≤ ds.length && ds.length ≤ 14)) ||
  (ds.getLast? = some (Char.ofNat 10) &&
    (ds.dropLast.all isPyDigit &&
      (1 ≤ ds.dropLast.length && ds.dropLast.length ≤ 14)))

/-- `re.match(r"^\+[1-9]\d\x7b1,14\x7d$", s)` on the character list: a
leading plus, one digit of the literal class `[1-9]` (exactly codes 49 to
57, also in Unicode mode), then `\d\x7b1,14\x7d$` with CPython's Unicode
`\d` and its trailing-newline-tolerant `$`. -/
def e164_matchChars : List Char → Bool
  | '+' :: d :: ds => (49 ≤ d.toNat && d.toNat ≤ 57) && digitsThenDollar ds
  | _ => false

/-- `bool(re.match(r"^\+[1-9]\d\x7b1,14\x7d$", recipient))`. -/
def e164_match (s : String) : Bool := e164_matchChars s.data

/-- The format rule as the claim words it: a leading `+`, then a nonzero
first digit, then 2 to 15 digits total — plain decimal digits, nothing
after them.  Stated independently of the regex, to be compared with
`e164_match`. -/
def e164_specChars : List Char → Bool
  | '+' :: rest =>
      rest.all isAsciiDigit && (2 ≤ rest.length && rest.length ≤ 15) &&
        (match rest with
         | d :: _ => !(d = '0')
         | [] => false)
  | _ => false

/-- The claim's acceptance rule on `String`. -/
def e164_spec (s : String) : Bool := e164_specChars s.data

/-- The amended acceptance rule: a leading `+`, then — after stripping one
trailing newline if present, which CPython's `$` tolerates — 2 to 15
Unicode decimal digits total, the first of which is a nonzero ASCII
digit. -/
def e164_amendedChars : List Char → Bool
  | '+' :: rest =>
      let body :=
        if rest.getLast? = some (Char.ofNat 10) then rest.dropLast else rest
      body.all isPyDigit && (2 ≤ body.length && body.length ≤ 15) &&
        (match body with
         | b :: _ => (48 ≤ b.toNat && b.toNat ≤ 57) && !(b = '0')
         | [] => false)
  | _ => false

/-- The amended acceptance rule on `String`. -/
def e164_amended (s : String) : Bool := e164_amendedChars s.data

/-- The string `+16175551212` followed by one newline (code 10): CPython's
regex accepts it, the claim's rule does not. -/
def newlineRecipient : String := "+16175551212" ++ String.mk [Char.ofNat 10]

/-- `+1` followed by the three Arabic-Indic digits with code points 0x663,
0x664 and 0x665: CPython's `\d` accepts them, the claim's rule does not. -/
def unicodeRecipient : String :=
  "+1" ++ String.mk [Char.ofNat 0x663, Char.ofNat 0x664, Char.ofNat 0x665]

/-- The error message `MSG_RECIPIENT_ERR % recipient`. -/
def recipientErrMsg (recipient : String) : String :=
  match pyFormat MSG_RECIPIENT_ERR [recipient] with
  | .ok m => m
  | .error _ => ""

/-- `validate_e164(recipients)`: raises `ValueError` at the first recipient
the regex does not match. -/
def validate_e164 : List String → Except PyExc Unit
  | [] => .ok ()
  | recipient :: rest =>
      if e164_match recipient then validate_e164 rest
      else .error (.valueError (recipientErrMsg recipient))

/-! ### Logger setup (`setup_logger`, lines 28-72) -/

/-- The file handler `setup_logger` would attach: its path and its level
(`logging.INFO = 20` when verbose, `logging.WARNING = 30` otherwise). -/
structure ErrHandler where
  path : String
  level : Nat
  deriving DecidableEq, Repr

/-- `setup_logger(log_file, verbose)`.  The OS facts — whether the resolved
log path names an existing file, whether that file is writable, whether the
containing directory is writable — are parameters (`os.path.isfile`,
`os.access`).  The local `err_handler` is assigned only inside the
writability check, yet `logger.addHandler(err_handler)` runs
unconditionally afterwards: when the check fails, Python raises
`UnboundLocalError` there.  The unassigned local is modelled as an
`Option`. -/
def setup_logger (log_file : Option String) (verbose : Bool)
    (err_path_exists can_write_file can_write_dir : Bool) :
    Except PyExc ErrHandler :=
  let err_log_path :=
    match log_file with
    | none => ERROR_LOG_FILENAME
    | some p => p
  let err_handler :=
    if (err_path_exists && can_write_file) ||
       (!err_path_exists && can_write_dir) then
      some (ErrHandler.mk err_log_path (if verbose then 20 else 30))
    else
      none
  match err_handler with
  | some h => .ok h
  | none => .error (.unboundLocalError "err_handler")

/-! ### Notifier (`sendMessage`, lines 159-185) and the notify loop -/

/-- `sendMessage(client, msg, sender, recipient)`: `create` stands for
`client.messages.create`, the external SMS API, a parameter returning the
created message `sid` or raising.  The function has no `try`, so every API
failure propagates to the caller; on success it logs `"Sent message " + sid`
(the returned string).  `msg` and `sender` are type parameters because the
call site passes a tuple for `msg` and a list for `sender` — Python is
dynamically typed. -/
def sendMessage {μ σ : Type} (create : μ → σ → String → Except PyExc String)
    (msg : μ) (sender : σ) (recipient : String) : Except PyExc String :=
  match create msg sender recipient with
  | .ok sid => .ok ("Sent message " ++ sid)
  | .error e => .error e

/-- Line 252: `message = MSG_TEXT_MESSAGE % str(spots),  SESSION_ID`.  The
trailing comma makes the right-hand side a tuple whose first component is
`MSG_TEXT_MESSAGE % str(spots)`; that format call feeds one argument to a
format string with two `%s` slots, so it raises `TypeError` before the tuple
is ever built. -/
def mkLoopMessage (spots : PyVal) : Except PyExc (String × String) :=
  match pyFormat MSG_TEXT_MESSAGE [pyStr spots] with
  | .ok m => .ok (m, SESSION_ID)
  | .error e => .error e

/-- The `for recipient in recipients` loop of `main` (lines 251-253): per
recipient, build the message then call `sendMessage`.  Returns the list of
recipients actually sent to, in order, together with the loop outcome; an
exception in the body stops the loop and propagates, leaving the remaining
recipients unsent. -/
def notifyAll (create : String × String → List String → String → Except PyExc String)
    (spots : PyVal) (sender : List String) :
    List String → List String × Except PyExc Unit
  | [] => ([], .ok ())
  | recipient :: rest =>
      match mkLoopMessage spots with
      | .error e => ([], .error e)
      | .ok message =>
          match sendMessage create message sender recipient with
          | .error e => ([], .error e)
          | .ok _ =>
              match notifyAll create spots sender rest with
              | (sent, res) => (recipient :: sent, res)

/-! ### Main loop (`main`, lines 235-265) -/

/-- Line 248: `(spots, available) = isSiteAvailable(SESSION_ID)`.  When the
checker fell off its loop it returned `None`, and unpacking `None` into a
pair raises `TypeError`. -/
def unpackPair (v : Option (PyVal × Bool)) : Except PyExc (PyVal × Bool) :=
  match v with
  | some p => .ok p
  | none => .error (.typeError "cannot unpack non-iterable NoneType object")

/-- One iteration of the `while True` body (lines 247-256), before its
`except KeyboardInterrupt` handler: poll, unpack the result, and when
available notify every recipient.  The trailing delay
(`get_delay_mins` / `delay_with_update_by_min`) only sleeps and raises
nothing, so it does not show up in the exception behaviour modelled here. -/
def loopIteration (fetch : FetchResult)
    (create : String × String → List String → String → Except PyExc String)
    (sender : List String) (recipients : List String) : Except PyExc Unit :=
  match isSiteAvailable fetch SESSION_ID with
  | .error e => .error e
  | .ok r =>
      match unpackPair r with
      | .error e => .error e
      | .ok (spots, available) =>
          if available then (notifyAll create spots sender recipients).2
          else .ok ()

/-- How the process ends, as observed from outside. -/
inductive ProcOutcome where
  | exitCode (n : Nat)
  | crashed (e : PyExc)
  deriving DecidableEq, Repr

/-- What a run of `main` did: the process outcome, whether the polling loop
was ever entered, whether a console message was printed
(`print("Value error: ...")`), and whether the interrupt was logged
(`_LOGGER.info(kerr)`). -/
structure MainResult where
  outcome : ProcOutcome
  loopEntered : Bool
  printed : Bool
  loggedInterrupt : Bool
  deriving DecidableEq, Repr

/-- `main()` (lines 235-265).  `setup` is the result of `setup_logger`
(fallible, see above); `recipients` and `sender` are the parsed CLI lists
(both declared with `nargs` plus, so `sender` is a list and
`validate_e164(recipients + sender)` checks their concatenation); `loopExc`
is the first exception some iteration of the otherwise infinite `while True`
raises — the loop can only end by an exception.  The inner handler catches
only `KeyboardInterrupt` (log, `sys.exit(0)`); the outer handler catches
only `ValueError` (print, fall through to `sys.exit(0)`); everything else —
including the `SystemExit` from `sys.exit(0)`, delivery errors and
`TypeError` — passes the outer `except ValueError` unhandled. -/
def mainRun (setup : Except PyExc ErrHandler)
    (recipients sender : List String) (loopExc : PyExc) : MainResult :=
  match setup with
  | .error e => MainResult.mk (.crashed e) false false false
  | .ok _ =>
      match validate_e164 (recipients ++ sender) with
      | .error (.valueError _) => MainResult.mk (.exitCode 0) false true false
      | .error e => MainResult.mk (.crashed e) false false false
      | .ok _ =>
          match loopExc with
          | .keyboardInterrupt => MainResult.mk (.exitCode 0) true false true
          | .valueError _ => MainResult.mk (.exitCode 0) true true false
          | e => MainResult.mk (.crashed e) true false false

/-! ## Helper lemmas -/

theorem findRow_cons_of_gets (sid : String) (cols : List String)
    (rest : List (List String)) (a b c : String)
    (h0 : cols[0]? = some a) (h1 : cols[1]? = some b)
    (h3 : cols[3]? = some c) :
    findRow sid (cols :: rest) =
      if a = sid then
        if c = "Full" then .ok (some (.int 0, false))
        else .ok (some (.str c, true))
      else findRow sid rest := by
  simp [findRow, h0, h1, h3]

theorem findRow_skip (sid : String) (cols : List String)
    (rest : List (List String)) (hlen : 4 ≤ cols.length)
    (hne : cols[0]? ≠ some sid) :
    findRow sid (cols :: rest) = findRow sid rest := by
  obtain ⟨a, h0⟩ : ∃ a, cols[0]? = some a :=
    ⟨_, List.getElem?_eq_getElem (by omega)⟩
  obtain ⟨b, h1⟩ : ∃ b, cols[1]? = some b :=
    ⟨_, List.getElem?_eq_getElem (by omega)⟩
  obtain ⟨c, h3⟩ : ∃ c, cols[3]? = some c :=
    ⟨_, List.getElem?_eq_getElem (by omega)⟩
  rw [findRow_cons_of_gets sid cols rest a b c h0 h1 h3]
  have ha : a ≠ sid := fun h => hne (h ▸ h0)
  simp [ha]

theorem findRow_cons_short (sid : String) (cols : List String)
    (rest : List (List String)) (hlen : cols.length < 4) :
    findRow sid (cols :: rest) = .error .indexError := by
  have h3 : cols[3]? = none := List.getElem?_eq_none (by omega)
  rcases h0 : cols[0]? with _ | a <;> rcases h1 : cols[1]? with _ | b <;>
    simp [findRow, h0, h1, h3]

theorem findRow_none_of_no_match (sid : String) (rows : List (List String))
    (hrows : ∀ r ∈ rows, 4 ≤ r.length ∧ r[0]? ≠ some sid) :
    findRow sid rows = .ok none := by
  induction rows with
  | nil => rfl
  | cons head tail ih =>
      have hh := hrows head (by simp)
      rw [findRow_skip sid head tail hh.1 hh.2]
      exact ih fun r hr => hrows r (by simp [hr])

theorem mkLoopMessage_error (spots : PyVal) :
    mkLoopMessage spots =
      .error (.typeError "not enough arguments for format string") := rfl

theorem validate_e164_ok_or_valueError (l : List String) :
    validate_e164 l = .ok () ∨
      ∃ m, validate_e164 l = .error (.valueError m) := by
  induction l with
  | nil => exact .inl rfl
  | cons r rest ih =>
      by_cases h : e164_match r
      · simpa [validate_e164, h] using ih
      · exact .inr ⟨recipientErrMsg r, by simp [validate_e164, h]⟩

/-! ## Claim theorems -/

/-- C3: for the first table row whose session-id column (`cols[0]`) exactly
equals the queried session identifier — every earlier row having four or
more cells and a different session id — the checker returns `(0, False)`
when the seat-count cell (`cols[3]`) is exactly the string `Full`, and
`(cell, True)` with the raw, unconverted cell text otherwise. -/
theorem C3_matched_row_result (sid : String) (pre post : List (List String))
    (row : List String) (c : String)
    (hpre : ∀ r ∈ pre, 4 ≤ r.length ∧ r[0]? ≠ some sid)
    (h0 : row[0]? = some sid) (h3 : row[3]? = some c) :
    isSiteAvailable (.page (pre ++ row :: post)) sid =
      if c = "Full" then .ok (some (.int 0, false))
      else .ok (some (.str c, true)) := by
  show findRow sid (pre ++ row :: post) = _
  induction pre with
  | nil =>
      have hlen : 3 < row.length := by
        rcases List.getElem?_eq_some_iff.mp h3 with ⟨h, _⟩
        omega
      obtain ⟨b, h1⟩ : ∃ b, row[1]? = some b :=
        ⟨_, List.getElem?_eq_getElem (by omega)⟩
      rw [List.nil_append, findRow_cons_of_gets sid row post sid b c h0 h1 h3]
      simp
  | cons head tail ih =>
      have hh := hpre head (by simp)
      rw [List.cons_append, findRow_skip sid head (tail ++ row :: post) hh.1 hh.2]
      exact ih fun r hr => hpre r (by simp [hr])

/-- Witness for C3: a concrete page with one non-matching row followed by the
matching row with seat cell `3`. -/
theorem C3_matched_row_result_witness :
    isSiteAvailable
        (.page [["UT Provo 04A", "2024-05-01", "-", "Full"],
                ["UT Provo 04B", "2024-06-01", "-", "3"]]) "UT Provo 04B"
      = .ok (some (.str "3", true)) := by
  have h := C3_matched_row_result "UT Provo 04B"
    [["UT Provo 04A", "2024-05-01", "-", "Full"]] []
    ["UT Provo 04B", "2024-06-01", "-", "3"] "3"
    (by decide) (by rfl) (by rfl)
  simpa using h

/-- C10: a table row with fewer than four cell columns makes the checker
raise `IndexError`, because `cols[0]`, `cols[1]` and `cols[3]` are read
unconditionally before the session-id comparison; here stated for a short
row that processing actually reaches (every earlier row has four or more
cells and does not match, i.e. the short row precedes or equals the first
matching row). -/
theorem C10_short_row_index_error (sid : String) (pre post : List (List String))
    (row : List String)
    (hpre : ∀ r ∈ pre, 4 ≤ r.length ∧ r[0]? ≠ some sid)
    (hshort : row.length < 4) :
    isSiteAvailable (.page (pre ++ row :: post)) sid = .error .indexError := by
  show findRow sid (pre ++ row :: post) = _
  induction pre with
  | nil => exact List.nil_append _ ▸ findRow_cons_short sid row post hshort
  | cons head tail ih =>
      have hh := hpre head (by simp)
      rw [List.cons_append, findRow_skip sid head (tail ++ row :: post) hh.1 hh.2]
      exact ih fun r hr => hpre r (by simp [hr])

/-- Witness for C10: a matching row that has only three cells (session id,
date, seat count — no fourth column) raises `IndexError`. -/
theorem C10_short_row_index_error_witness :
    isSiteAvailable (.page [["UT Provo 04B", "2024-06-01", "3"]]) "UT Provo 04B"
      = .error .indexError :=
  C10_short_row_index_error "UT Provo 04B" [] [] ["UT Provo 04B", "2024-06-01", "3"]
    (by decide) (by decide)

/-- C2 counterexample: the claim says that on a session identifier matching
no row neither the checker nor the polling loop crashes from an
undefined-value access; but on a concrete one-row page with no matching row
the loop body raises `TypeError` unpacking the checker's implicit `None`. -/
theorem C2_counterexample :
    loopIteration (.page [["UT Provo 05A", "2024-06-08", "-", "3"]])
        (fun _ _ _ => .ok "SM1") ["+15550001111"] ["+16175551212"]
      = .error (.typeError "cannot unpack non-iterable NoneType object") := by
  rfl

/-- C2 (amended): when no row matches `SESSION_ID` (all rows well-formed with
four or more cells), the checker returns Python `None` — an implicit,
distinguishable value — and the main loop then raises `TypeError` when
unpacking that `None` into `(spots, available)`; the iteration errors
instead of continuing. -/
theorem C2_no_match_returns_none (rows : List (List String))
    (create : String × String → List String → String → Except PyExc String)
    (sender recipients : List String)
    (hrows : ∀ r ∈ rows, 4 ≤ r.length ∧ r[0]? ≠ some SESSION_ID) :
    isSiteAvailable (.page rows) SESSION_ID = .ok none ∧
    loopIteration (.page rows) create sender recipients
      = .error (.typeError "cannot unpack non-iterable NoneType object") := by
  have hfind : findRow SESSION_ID rows = .ok none :=
    findRow_none_of_no_match SESSION_ID rows hrows
  refine ⟨hfind, ?_⟩
  simp [loopIteration, isSiteAvailable, hfind, unpackPair]

/-- Witness for the amended C2 at a concrete non-matching page. -/
theorem C2_no_match_returns_none_witness :
    isSiteAvailable (.page [["UT Provo 05A", "2024-06-08", "-", "Full"]]) SESSION_ID
      = .ok none ∧
    loopIteration (.page [["UT Provo 05A", "2024-06-08", "-", "Full"]])
        (fun _ _ _ => .ok "SM1") ["+15550001111"] ["+16175551212"]
      = .error (.typeError "cannot unpack non-iterable NoneType object") :=
  C2_no_match_returns_none [["UT Provo 05A", "2024-06-08", "-", "Full"]]
    (fun _ _ _ => .ok "SM1") ["+15550001111"] ["+16175551212"] (by decide)

/-- C6: a connection reset during the fetch is caught inside
`isSiteAvailable` and converted to `(0, False)` rather than propagated, and
the loop iteration that consumes it finishes normally (continues to the next
iteration). -/
theorem C6_connection_reset_caught (session_id : String)
    (create : String × String → List String → String → Except PyExc String)
    (sender recipients : List String) :
    isSiteAvailable .connectionReset session_id = .ok (some (.int 0, false)) ∧
    loopIteration .connectionReset create sender recipients = .ok () :=
  ⟨rfl, rfl⟩

/-- C1 (evaluating the buggy code at the claim's scenario): on a page whose
one row is `("UT Provo 04B", "2024-06-01", "-", "3")` the checker does
report `(3, True)`, but building the notification message raises
`TypeError` — `MSG_TEXT_MESSAGE % str(spots)` feeds one argument to a format
string with two `%s` slots, because the trailing `, SESSION_ID` of line 252
builds a tuple instead of a second format argument — so no recipient is sent
anything and the iteration errors.  The last conjunct shows the intended
two-argument format would have contained the spot count and the fixed
session-detail link. -/
theorem C1_notification_format_bug :
    isSiteAvailable (.page [["UT Provo 04B", "2024-06-01", "-", "3"]]) SESSION_ID
      = .ok (some (.str "3", true)) ∧
    mkLoopMessage (.str "3")
      = .error (.typeError "not enough arguments for format string") ∧
    notifyAll (fun _ _ _ => .ok "SM1") (.str "3") ["+15550001111"]
        ["+16175551212", "+16175551213"]
      = ([], .error (.typeError "not enough arguments for format string")) ∧
    loopIteration (.page [["UT Provo 04B", "2024-06-01", "-", "3"]])
        (fun _ _ _ => .ok "SM1") ["+15550001111"]
        ["+16175551212", "+16175551213"]
      = .error (.typeError "not enough arguments for format string") ∧
    pyFormat MSG_TEXT_MESSAGE ["3", SESSION_ID]
      = .ok ("3 spots availible for session UT Provo 04B at efy.Click here https://efy.byu.edu/efy_session/10091862.") :=
  ⟨rfl, rfl, rfl, rfl, rfl⟩

theorem char_toNat_inj {a b : Char} (h : a.toNat = b.toNat) : a = b := by
  rw [← Char.ofNat_toNat a, h, Char.ofNat_toNat]

theorem isPyDigit_ascii (d : Char) (h1 : 48 ≤ d.toNat) (h2 : d.toNat ≤ 57) :
    isPyDigit d = true := by
  simp only [isPyDigit, ndZeroPoints, List.any_cons, List.any_nil,
    Bool.or_eq_true, Bool.and_eq_true, decide_eq_true_eq]
  omega

theorem isPyDigit_newline : isPyDigit (Char.ofNat 10) = false := by decide

theorem ascii_nonzero_iff (d : Char) :
    (49 ≤ d.toNat ∧ d.toNat ≤ 57) ↔
      (isPyDigit d = true ∧ (48 ≤ d.toNat ∧ d.toNat ≤ 57) ∧ ¬(d = '0')) := by
  constructor
  · rintro ⟨h1, h2⟩
    refine ⟨isPyDigit_ascii d (by omega) h2, ⟨by omega, h2⟩, ?_⟩
    intro he
    rw [he] at h1
    exact absurd h1 (by decide)
  · rintro ⟨hp, ⟨h1, h2⟩, hne⟩
    have h48 : d.toNat ≠ 48 := fun h => hne (char_toNat_inj (h.trans rfl))
    exact ⟨by omega, h2⟩

theorem all_isPyDigit_false_of_last_newline (l : List Char) (hne : l ≠ [])
    (hnl : l.getLast? = some (Char.ofNat 10)) :
    l.all isPyDigit = false := by
  have hg := List.getLast?_eq_getLast l hne
  rw [hg] at hnl
  have heq : l.getLast hne = Char.ofNat 10 := Option.some.inj hnl
  have hmem : Char.ofNat 10 ∈ l := heq ▸ List.getLast_mem hne
  rcases hall : l.all isPyDigit with _ | _
  · rfl
  · have := List.all_eq_true.mp hall _ hmem
    rw [isPyDigit_newline] at this
    exact absurd this (by simp)

theorem e164_matchChars_eq_amended (l : List Char) :
    e164_matchChars l = e164_amendedChars l := by
  rcases l with _ | ⟨c, rest⟩
  · rfl
  by_cases hc : c = '+'
  case neg =>
    rcases rest with _ | ⟨d, ds⟩ <;>
      simp [e164_matchChars, e164_amendedChars, hc]
  case pos =>
    subst hc
    rcases rest with _ | ⟨d, ds⟩
    · rfl
    rcases ds with _ | ⟨e, es⟩
    · -- one character after the plus: too short on both sides
      by_cases hd : d = Char.ofNat 10
      · subst hd
        decide
      · simp [e164_matchChars, e164_amendedChars, digitsThenDollar, hd]
    · -- at least two characters after the plus
      have hlast : (d :: e :: es).getLast? = (e :: es).getLast? :=
        List.getLast?_cons_cons
      have hdrop : (d :: e :: es).dropLast = d :: (e :: es).dropLast := rfl
      by_cases hnl : (e :: es).getLast? = some (Char.ofNat 10)
      · have hallf : (e :: es).all isPyDigit = false :=
          all_isPyDigit_false_of_last_newline (e :: es) (by simp) hnl
        rw [Bool.eq_iff_iff]
        simp only [e164_matchChars, e164_amendedChars, digitsThenDollar,
          hlast, hdrop, hnl, hallf, if_pos, List.all_cons, List.length_cons,
          Bool.and_eq_true, Bool.or_eq_true, decide_eq_true_eq,
          Bool.false_and, Bool.and_false, Bool.false_or, Bool.not_eq_true',
          decide_eq_false_iff_not]
        constructor
        · rintro ⟨⟨h1, h2⟩, -, hall, hlen1, hlen2⟩
          obtain ⟨hpd, hb, hne0⟩ := (ascii_nonzero_iff d).mp ⟨h1, h2⟩
          exact ⟨⟨⟨hpd, hall⟩, by omega, by omega⟩, hb, hne0⟩
        · rintro ⟨⟨⟨hpd, hall⟩, hlen1, hlen2⟩, hb, hne0⟩
          obtain ⟨h1, h2⟩ := (ascii_nonzero_iff d).mpr ⟨hpd, hb, hne0⟩
          exact ⟨⟨h1, h2⟩, trivial, hall, by omega, by omega⟩
      · rw [Bool.eq_iff_iff]
        simp only [e164_matchChars, e164_amendedChars, digitsThenDollar,
          hlast, hdrop, if_neg hnl, List.all_cons, List.length_cons,
          Bool.and_eq_true, Bool.or_eq_true, decide_eq_true_eq,
          Bool.not_eq_true', decide_eq_false_iff_not]
        constructor
        · rintro ⟨⟨h1, h2⟩, hrest⟩
          rcases hrest with ⟨⟨hpe, hall⟩, hlen1, hlen2⟩ | ⟨hbad, -⟩
          · obtain ⟨hpd, hb, hne0⟩ := (ascii_nonzero_iff d).mp ⟨h1, h2⟩
            exact ⟨⟨⟨hpd, hpe, hall⟩, by omega, by omega⟩, hb, hne0⟩
          · exact absurd hbad hnl
        · rintro ⟨⟨⟨hpd, hpe, hall⟩, hlen1, hlen2⟩, hb, hne0⟩
          obtain ⟨h1, h2⟩ := (ascii_nonzero_iff d).mpr ⟨hpd, hb, hne0⟩
          exact ⟨⟨h1, h2⟩, .inl ⟨⟨hpe, hall⟩, by omega, by omega⟩⟩

/-- C4 counterexample: the claim says validation accepts exactly the
leading-plus, nonzero-first-digit, 2-to-15-digits strings and raises
`ValueError` for every other string; but `+16175551212` followed by a
newline and `+1` followed by Arabic-Indic digits fall outside that rule and
still pass validation without a `ValueError`, because CPython's `$` matches
before one trailing newline and its `\d` matches any Unicode decimal
digit. -/
theorem C4_counterexample :
    e164_spec newlineRecipient = false ∧
    e164_spec unicodeRecipient = false ∧
    validate_e164 [newlineRecipient] = .ok () ∧
    validate_e164 [unicodeRecipient] = .ok () :=
  ⟨by decide, by decide, by decide, by decide⟩

/-- C4 (amended): recipient validation accepts exactly the strings made of
a leading plus then — up to one trailing newline, which CPython's `$`
tolerates — 2 to 15 Unicode decimal digits (CPython's `\d`) whose first is
a nonzero ASCII digit; it raises `ValueError` for every other string.  The
five specification examples classify as the claim states, and the two
counterexample strings also pass. -/
theorem C4_amended_validation :
    (∀ s, e164_match s = e164_amended s) ∧
    e164_match "+16175551212" = true ∧
    e164_match "+123456789012345" = true ∧
    e164_match "6175551212" = false ∧
    e164_match "+0175551212" = false ∧
    e164_match "+1234567890123456" = false ∧
    e164_match newlineRecipient = true ∧
    e164_match unicodeRecipient = true ∧
    (∀ r, validate_e164 [r] =
      if e164_match r then .ok () else .error (.valueError (recipientErrMsg r))) ∧
    (∀ rs, validate_e164 rs = .ok () ↔ ∀ r ∈ rs, e164_match r = true) := by
  refine ⟨fun s => e164_matchChars_eq_amended s.data, by decide, by decide,
    by decide, by decide, by decide, by decide, by decide, ?_, ?_⟩
  · intro r
    by_cases h : e164_match r <;> simp [validate_e164, h]
  · intro rs
    induction rs with
    | nil => simp [validate_e164]
    | cons r rest ih =>
        by_cases h : e164_match r
        · simp [validate_e164, h, ih]
        · simp [validate_e164, h]

/-- Witness for the amended C4: the two passing examples validate as a
list, and the regex agrees with the amended rule on the newline string. -/
theorem C4_amended_validation_witness :
    validate_e164 ["+16175551212", "+123456789012345"] = .ok () ∧
    e164_match newlineRecipient = e164_amended newlineRecipient := by
  refine ⟨?_, C4_amended_validation.1 newlineRecipient⟩
  exact (C4_amended_validation.2.2.2.2.2.2.2.2.2
    ["+16175551212", "+123456789012345"]).mpr (by decide)

theorem get_delay_mins_eq (normal : ℚ → ℚ → ℚ) (mu sigma : ℚ) :
    get_delay_mins normal mu sigma = Int.floor (max (normal mu sigma) 0) := by
  by_cases hx : normal mu sigma < 0
  · simp [get_delay_mins, pyInt, hx, max_eq_right (le_of_lt hx)]
  · have hx0 : 0 ≤ normal mu sigma := not_lt.mp hx
    simp [get_delay_mins, pyInt, hx, max_eq_left hx0]

/-- C5: for every mean, standard deviation and draw of the randomness
source, `get_delay_mins` returns a non-negative integer — the drawn value
clamped to a minimum of zero, truncated to an integer — with defaults
mean 10 and standard deviation 15, and over the possible draws the result
has no upper bound. -/
theorem C5_delay_generator :
    (∀ (normal : ℚ → ℚ → ℚ) (mu sigma : ℚ),
        0 ≤ get_delay_mins normal mu sigma ∧
        get_delay_mins normal mu sigma = Int.floor (max (normal mu sigma) 0)) ∧
    DEFAULT_MU = 10 ∧ DEFAULT_SIGMA = 15 ∧
    (∀ B : ℤ, ∃ normal : ℚ → ℚ → ℚ,
        B < get_delay_mins normal DEFAULT_MU DEFAULT_SIGMA) := by
  refine ⟨?_, rfl, rfl, ?_⟩
  · intro normal mu sigma
    refine ⟨?_, get_delay_mins_eq normal mu sigma⟩
    rw [get_delay_mins_eq]
    exact Int.floor_nonneg.mpr (le_max_right _ _)
  · intro B
    refine ⟨fun _ _ => ((B.natAbs + 1 : ℕ) : ℚ), ?_⟩
    rw [get_delay_mins_eq]
    have hmax : max (((B.natAbs + 1 : ℕ) : ℚ)) 0 = ((B.natAbs + 1 : ℕ) : ℚ) :=
      max_eq_left (by positivity)
    rw [hmax, Int.floor_natCast]
    have hle := Int.le_natAbs (a := B)
    omega

/-- C9: when the resolved log path is not writable — the file exists without
write access, or it does not exist and the containing directory is not
writable — `setup_logger` raises `UnboundLocalError` on `err_handler`
(assigned only inside the writability check, referenced unconditionally)
instead of completing logger setup. -/
theorem C9_setup_logger_unbound_local (log_file : Option String) (verbose : Bool)
    (err_path_exists can_write_file can_write_dir : Bool)
    (h : (err_path_exists = true ∧ can_write_file = false) ∨
         (err_path_exists = false ∧ can_write_dir = false)) :
    setup_logger log_file verbose err_path_exists can_write_file can_write_dir
      = .error (.unboundLocalError "err_handler") := by
  rcases h with ⟨h1, h2⟩ | ⟨h1, h2⟩ <;> subst h1 <;> subst h2 <;>
    simp [setup_logger]

/-- Witness for C9: default log file, existing but unwritable. -/
theorem C9_setup_logger_unbound_local_witness :
    setup_logger none false true false true
      = .error (.unboundLocalError "err_handler") :=
  C9_setup_logger_unbound_local none false true false true (.inl ⟨rfl, rfl⟩)

/-- C8: with logger setup succeeded, a recipient-validation failure prints a
message and exits with status 0 without ever entering the polling loop, and
a user interrupt in the loop logs a message and also exits with status 0. -/
theorem C8_exit_status_zero :
    (∀ (h : ErrHandler) (recipients sender : List String) (loopExc : PyExc),
        validate_e164 (recipients ++ sender) ≠ .ok () →
        mainRun (.ok h) recipients sender loopExc
          = MainResult.mk (.exitCode 0) false true false) ∧
    (∀ (h : ErrHandler) (recipients sender : List String),
        validate_e164 (recipients ++ sender) = .ok () →
        mainRun (.ok h) recipients sender .keyboardInterrupt
          = MainResult.mk (.exitCode 0) true false true) := by
  constructor
  · intro h recipients sender loopExc hval
    rcases validate_e164_ok_or_valueError (recipients ++ sender) with hok | ⟨m, herr⟩
    · exact absurd hok hval
    · simp [mainRun, herr]
  · intro h recipients sender hval
    simp [mainRun, hval]

/-- Witness for C8: an invalid recipient (no leading plus) exits 0 without
entering the loop; with valid numbers, an interrupt exits 0 from the loop. -/
theorem C8_exit_status_zero_witness :
    mainRun (.ok (ErrHandler.mk "check-efy.log" 30)) ["6175551212"]
        ["+15550001111"] .keyboardInterrupt
      = MainResult.mk (.exitCode 0) false true false ∧
    mainRun (.ok (ErrHandler.mk "check-efy.log" 30)) ["+16175551212"]
        ["+15550001111"] .keyboardInterrupt
      = MainResult.mk (.exitCode 0) true false true := by
  constructor
  · exact C8_exit_status_zero.1 _ ["6175551212"] ["+15550001111"]
      .keyboardInterrupt (by decide)
  · exact C8_exit_status_zero.2 _ ["+16175551212"] ["+15550001111"] (by decide)

/-- C7: `sendMessage` propagates every delivery failure of the client's
`create` call to its caller; the loop-level handlers catch only
`KeyboardInterrupt` (and, at the outer level, `ValueError`), so a delivery
error crashes the process; and an error during the notify cycle stops the
cycle with strictly fewer recipients sent to than the whole list. -/
theorem C7_delivery_failure_propagates :
    (∀ (μ σ : Type) (create : μ → σ → String → Except PyExc String)
        (msg : μ) (sender : σ) (recipient : String) (e : PyExc),
        create msg sender recipient = .error e →
        sendMessage create msg sender recipient = .error e) ∧
    (∀ (h : ErrHandler) (recipients sender : List String) (m : String),
        validate_e164 (recipients ++ sender) = .ok () →
        mainRun (.ok h) recipients sender (.twilioRestError m)
          = MainResult.mk (.crashed (.twilioRestError m)) true false false) ∧
    (∀ create spots sender recipients e,
        (notifyAll create spots sender recipients).2 = .error e →
        (notifyAll create spots sender recipients).1.length < recipients.length) := by
  refine ⟨?_, ?_, ?_⟩
  · intro μ σ create msg sender recipient e h
    simp [sendMessage, h]
  · intro h recipients sender m hval
    simp [mainRun, hval]
  · intro create spots sender recipients e herr
    cases recipients with
    | nil => simp [notifyAll] at herr
    | cons r rest =>
        simp [notifyAll, mkLoopMessage_error]

/-- Witness for C7: a failing `create` propagates out of `sendMessage`; a
delivery error in the loop crashes the process; an erroring cycle sends to
fewer recipients than the list holds. -/
theorem C7_delivery_failure_propagates_witness :
    sendMessage (fun (_ : String) (_ : String) (_ : String) =>
        Except.error (PyExc.twilioRestError "auth failure")) "hi" "s" "+16175551212"
      = .error (.twilioRestError "auth failure") ∧
    mainRun (.ok (ErrHandler.mk "check-efy.log" 30)) ["+16175551212"]
        ["+15550001111"] (.twilioRestError "auth failure")
      = MainResult.mk (.crashed (.twilioRestError "auth failure")) true false false ∧
    (notifyAll (fun _ _ _ => .ok "SM1") (.str "3") ["+15550001111"]
      ["+16175551212"]).1.length < 1 := by
  refine ⟨?_, ?_, ?_⟩
  · exact C7_delivery_failure_propagates.1 String String _ "hi" "s" "+16175551212"
      (.twilioRestError "auth failure") rfl
  · exact C7_delivery_failure_propagates.2.1 _ ["+16175551212"] ["+15550001111"]
      "auth failure" (by decide)
  · exact C7_delivery_failure_propagates.2.2 _ (.str "3") ["+15550001111"]
      ["+16175551212"] (.typeError "not enough arguments for format string") rfl

/-- Witness for C5: a concrete negative draw is clamped to zero. -/
theorem C5_delay_generator_witness :
    0 ≤ get_delay_mins (fun _ _ => (-5 : ℚ)) 10 15 ∧
    get_delay_mins (fun _ _ => (-5 : ℚ)) 10 15 = Int.floor (max (-5 : ℚ) 0) :=
  C5_delay_generator.1 (fun _ _ => (-5 : ℚ)) 10 15

/-- Witness for C6: a reset during the poll for `SESSION_ID` yields
`(0, False)` and a normally completed iteration. -/
theorem C6_connection_reset_caught_witness :
    isSiteAvailable .connectionReset SESSION_ID = .ok (some (.int 0, false)) ∧
    loopIteration .connectionReset (fun _ _ _ => .ok "SM1") ["+15550001111"]
        ["+16175551212"]
      = .ok () :=
  C6_connection_reset_caught SESSION_ID (fun _ _ _ => .ok "SM1") ["+15550001111"]
    ["+16175551212"]
